import Mathlib

/-!
Verification development for the GeospatialSolutions repository: a shallow
embedding in Lean 4 of the housing-vacancy choropleth application's data-fetch
and reconciliation pipeline (src/src/App.jsx, src/unnamed/part_001), together
with theorems settling the frozen specification claims.

Modelling conventions:
* JavaScript strings are Lean `String`s (a structure over `List Char`).
* JSON objects whose keys are consulted dynamically (ESRI feature attributes,
  GeoJSON feature properties) are association lists `List (String × String)`
  with JS-object semantics: keys are unique, spread-then-override replaces.
* A possibly-absent value (`undefined` / missing key / out-of-range index)
  is an `Option`.
* Machine numbers are modelled exactly: the cell values that reach arithmetic
  are nonnegative decimal counts, modelled as `Nat`; the derived vacancy rate
  is computed over `ℚ`/scaled naturals (exact real semantics of the JS
  expression, idealizing binary64 rounding).
* `fetch` results are passed in as explicit environment values; a thrown
  `Error` is an `Except`/error field carrying a `JsError` kind naming the
  throw site (the JS message text is a fixed decoration of the kind and is
  recorded in the constructor's doc comment).
-/

namespace GeoApp

/-- Error kinds for every `throw new Error(...)` site of the source that the
claims touch. Each constructor documents the literal JS message it stands for
and the specification's error-kind name. -/
inductive JsError where
  /-- `'Invalid geography level'` thrown by the `default` arm of
  `fetchGeoJSON`'s `switch` (App.jsx 167-168); the spec's `UnsupportedLevel`. -/
  | invalidGeographyLevel
  /-- `` `HTTP error! status: ${response.status}` `` (App.jsx 174-176). -/
  | httpError (status : Nat)
  /-- `'Failed to fetch county data'` (App.jsx 442-443). -/
  | fetchCountyFailed
  /-- `'Invalid statistics data received'` (App.jsx 452-455); the spec's
  `UpstreamUnavailable`. -/
  | invalidStatsData
  /-- `'Invalid geometry data received'` (App.jsx 457-460); the spec's
  `GeometryUnavailable`. -/
  | invalidGeometryData
  /-- `'Please select a county first'` set by `handleGeoLevelChange`
  (App.jsx 604-606); the spec's `PreconditionNotMet`. -/
  | preconditionCountyFirst
  /-- `'Invalid GeoJSON data received'` thrown by `updateMap`
  (App.jsx 235-237). -/
  | invalidGeoJSONData
  /-- `'Invalid ESRI JSON data'` thrown by `esriToGeoJSON`
  (src/unnamed/part_001 line 4). -/
  | invalidEsriData
deriving DecidableEq, Repr

/-- Census variable name for total housing units (App.jsx 39). -/
def variables_totalHousing : String := "B25002_001E"

/-- Census variable name for vacant units (App.jsx 40). -/
def variables_vacant : String := "B25002_003E"

/-- Numeric value of a list of decimal digit characters. -/
def digitsToNat (ds : List Char) : Nat :=
  ds.foldl (fun n c => n * 10 + (c.toNat - 48)) 0

/-- JS `parseInt(cell) || 0` as the source applies it to a Census count cell
(App.jsx 205-206): an absent cell (`undefined`, from a missing header or a
short row) or a cell without a leading decimal digit gives `NaN`, which the
`|| 0` fallback turns into `0`; otherwise the longest leading digit run is
parsed. Cells are nonnegative decimal counts, so no sign handling arises. -/
def parseIntOrZero : Option String → Nat
  | none => 0
  | some s =>
    match s.data.takeWhile Char.isDigit with
    | [] => 0
    | ds => digitsToNat ds

/-- JS `row[i]` for an index that may itself be absent
(`headers.indexOf(v)` returning `-1` makes `row[-1]` equal `undefined`). -/
def getCell (row : List String) : Option Nat → Option String
  | none => none
  | some i => row[i]?

/-- The value of `((vacant / totalHousing) * 100).toFixed(1)` in tenths of a
percent, under exact rational semantics: ECMAScript `toFixed(1)` picks the
integer `n` minimizing `|n/10 - x|`, the larger `n` on ties, i.e.
`⌊x*10 + 1/2⌋`; here `x*10 = 1000*vacant/total`, so
`⌊(2000*vacant + total) / (2*total)⌋` as natural division. -/
def rateTenths (vacant total : Nat) : Nat :=
  (2000 * vacant + total) / (2 * total)

/-- Rendering of a tenths-of-a-percent value the way `toFixed(1)` renders a
nonnegative rate: integer part, a dot, one fractional digit. -/
def showTenths (n : Nat) : String :=
  toString (n / 10) ++ "." ++ toString (n % 10)

/-- The source's vacancy-rate expression
`totalHousing > 0 ? ((vacant / totalHousing) * 100).toFixed(1) : '0.0'`
(App.jsx 207). -/
def vacancyRateStr (vacant total : Nat) : String :=
  if total > 0 then showTenths (rateTenths vacant total) else "0.0"

/-- One row of the statistical API response turned into an area statistic,
as stored by the source. -/
structure AreaStat where
  name : String
  geoid : String
  totalHousing : Nat
  vacant : Nat
  vacancyRate : String
deriving DecidableEq, Repr

/-- The per-row body of `fetchVacancyData`'s `rows.map` (App.jsx 204-216):
counts are located by header name via `indexOf`, parsed with a zero fallback,
the rate is derived, `name` is the first cell and `geoid` the last cell of
the row (both `undefined`, modelled `""`, on an empty row). -/
def rowToStat (headers row : List String) : AreaStat :=
  let totalHousing := parseIntOrZero (getCell row (headers.findIdx? (· == variables_totalHousing)))
  let vacant := parseIntOrZero (getCell row (headers.findIdx? (· == variables_vacant)))
  { name := (row[0]?).getD ""
    geoid := (row[row.length - 1]?).getD ""
    totalHousing := totalHousing
    vacant := vacant
    vacancyRate := vacancyRateStr vacant totalHousing }

/-- `fetchVacancyData`'s response processing (App.jsx 202-216): the JSON array
is destructured into a header row and data rows, and each data row is mapped
to an `AreaStat`. An empty response array destructures to `headers =
undefined, rows = []`, and the map over `[]` returns `[]` without touching
`headers`. -/
def fetchVacancyData (resp : List (List String)) : List AreaStat :=
  match resp with
  | [] => []
  | headers :: rows => rows.map (rowToStat headers)

/-- JS `String.prototype.padStart(n, c)`: prepend copies of `c` until the
length is at least `n`. -/
def padStart (s : String) (n : Nat) (c : Char) : String :=
  ⟨List.replicate (n - s.data.length) c ++ s.data⟩

/-- The Identifier Normalizer for state ids: `id.padStart(2, '0')`
(App.jsx 73, 97). -/
def normalizeStateId (raw : String) : String :=
  padStart raw 2 '0'

/-- The Identifier Normalizer for county ids: `id.padStart(3, '0')`
(App.jsx 117, 421). -/
def normalizeCountyId (raw : String) : String :=
  padStart raw 3 '0'

/-- A string made only of decimal digits (a valid raw numeric id). -/
def isNumericStr (s : String) : Bool :=
  s.data.all Char.isDigit

/-! Geometry documents. Polygon coordinates are opaque ring arrays; their
numeric content is never consulted by the pipeline. -/

/-- Opaque polygon coordinate rings. -/
abbrev Coords := List (List (Int × Int))

/-- A JS object consulted by key, with unique keys (association list). -/
abbrev Props := List (String × String)

/-- JS property read `obj[k]`: the value under key `k`, `undefined` if
absent. -/
def getProp (ps : Props) (k : String) : Option String :=
  (ps.find? (fun p => p.fst == k)).map Prod.snd

/-- JS object spread followed by an explicit key, `\x7b...obj, k: v\x7d`: every
other key keeps its value and `k` gets `v`. -/
def setProp (ps : Props) (k v : String) : Props :=
  ps.filter (fun p => ¬(p.fst == k)) ++ [(k, v)]

/-- JS `a || b` for a possibly-absent string `a`: an absent or empty (falsy)
`a` yields `b`. -/
def jsOrStr : Option String → Option String → Option String
  | some s, b => if s = "" then b else some s
  | none, b => b

/-- Geometry member of a GeoJSON feature. -/
structure GeoGeometry where
  gtype : String
  coordinates : Option Coords
deriving DecidableEq, Repr

/-- A GeoJSON feature. -/
structure GeoFeature where
  ftype : String
  geometry : GeoGeometry
  properties : Props
deriving DecidableEq, Repr

/-- A GeoJSON feature collection. -/
structure GeoJsonDoc where
  ftype : String
  features : List GeoFeature
deriving DecidableEq, Repr

/-- Geometry member of an ESRI-dialect feature: rings live under `rings`,
but a feature may instead carry `coordinates`. -/
structure EsriGeometry where
  gtype : String
  rings : Option Coords
  coordinates : Option Coords
deriving DecidableEq, Repr

/-- An ESRI-dialect feature: geometry plus a flat attribute bag. -/
structure EsriFeature where
  geometry : EsriGeometry
  attributes : Props
deriving DecidableEq, Repr

/-- An ESRI-dialect response body; `features` may be absent. -/
structure EsriData where
  features : Option (List EsriFeature)
deriving DecidableEq, Repr

/-- The per-feature conversion inside `esriToGeoJSON`
(src/unnamed/part_001 lines 9-20): geometry type is the literal `'Polygon'`,
coordinates are `rings || coordinates` (an array, even empty, is truthy), and
properties are the spread attributes with `id` set to
`attributes.GEOID || concatenation of STATE, COUNTY, TRACT with '' fallbacks`. -/
def esriFeatureToGeoJSON (f : EsriFeature) : GeoFeature :=
  { ftype := "Feature"
    geometry :=
      { gtype := "Polygon"
        coordinates := f.geometry.rings <|> f.geometry.coordinates }
    properties :=
      setProp f.attributes "id"
        ((jsOrStr (getProp f.attributes "GEOID")
          (some ((getProp f.attributes "STATE").getD "" ++
                 (getProp f.attributes "COUNTY").getD "" ++
                 (getProp f.attributes "TRACT").getD ""))).getD "") }

/-- `esriToGeoJSON` (src/unnamed/part_001): a missing input object or a
missing `features` array throws `'Invalid ESRI JSON data'`; otherwise every
feature is converted by `esriFeatureToGeoJSON` into a `FeatureCollection`. -/
def esriToGeoJSON (esriData : Option EsriData) : Except JsError GeoJsonDoc :=
  match esriData with
  | none => .error .invalidEsriData
  | some d =>
    match d.features with
    | none => .error .invalidEsriData
    | some fs =>
      .ok { ftype := "FeatureCollection", features := fs.map esriFeatureToGeoJSON }

/-! The view-model joiner: the per-feature style function and the rendered
layer. -/

/-- The 9-bucket color ramp `getColor` (App.jsx 44-54). -/
def getColor (rate : ℚ) : String :=
  if rate ≥ 25 then "#a50f15"
  else if rate ≥ 20 then "#de2d26"
  else if rate ≥ 15 then "#fb6a4a"
  else if rate ≥ 10 then "#fcae91"
  else if rate ≥ 7 then "#fee5d9"
  else if rate ≥ 5 then "#edf8e9"
  else if rate ≥ 3 then "#bae4b3"
  else if rate ≥ 1 then "#74c476"
  else "#238b45"

/-- JS `parseFloat` on the decimal strings this pipeline produces
(`toFixed(1)` output): a leading digit run, an optional dot and fractional
digit run. A string with no leading digits parses to `NaN`, which every
comparison in `getColor` treats exactly like the value `0` here modelled. -/
def parseFloatQ (s : String) : ℚ :=
  let intPart := s.data.takeWhile Char.isDigit
  match s.data.drop intPart.length with
  | '.' :: rest =>
    let frac := rest.takeWhile Char.isDigit
    (digitsToNat intPart : ℚ) + (digitsToNat frac : ℚ) / 10 ^ frac.length
  | _ => (digitsToNat intPart : ℚ)

/-- The join key of a geometry feature:
`feature.properties.GEOID || feature.properties.id` (App.jsx 255-257). -/
def featureKey (f : GeoFeature) : Option String :=
  jsOrStr (getProp f.properties "GEOID") (getProp f.properties "id")

/-- The lookup `vacancyData.find(d => d.geoid === (GEOID || id))`
(App.jsx 255-257): `===` against an absent key is false. -/
def findStat (vacancyData : List AreaStat) (f : GeoFeature) : Option AreaStat :=
  vacancyData.find? (fun d => some d.geoid == featureKey f)

/-- A Leaflet path style record as `style` returns it (App.jsx 260-267). -/
structure LeafletStyle where
  fillColor : String
  weight : Nat
  opacity : Nat
  color : String
  dashArray : String
  fillOpacity : ℚ
deriving DecidableEq, Repr

/-- The per-feature `style` function (App.jsx 254-268): the matching
statistic's parsed vacancy rate, or `0` with no match, drives the fill
color; all other style fields are constants. -/
def style (vacancyData : List AreaStat) (f : GeoFeature) : LeafletStyle :=
  let rate : ℚ :=
    match findStat vacancyData f with
    | some d => parseFloatQ d.vacancyRate
    | none => 0
  { fillColor := getColor rate
    weight := 1
    opacity := 1
    color := "#666"
    dashArray := ""
    fillOpacity := 7 / 10 }

/-- The rendering surface applies `style` to every feature of the committed
document (MapComponent's GeoJSON layer, src/unnamed/part_002 50-57): no
feature is dropped by the join. -/
def renderLayer (doc : GeoJsonDoc) (vacancyData : List AreaStat) :
    List (GeoFeature × LeafletStyle) :=
  doc.features.map (fun f => (f, style vacancyData f))

/-! The ranked statistics table (App.jsx 756-758):
`[...vacancyData].sort((a, b) => parseFloat(b.vacancyRate) -
parseFloat(a.vacancyRate)).slice(0, 10)`. ECMAScript `Array.prototype.sort`
is specified stable, and with this comparator it orders entries by parsed
vacancy rate descending; any stable sort realising that order is
extensionally the same function, so the embedding uses a stable insertion
sort with the identical key. -/

/-- The sort key `parseFloat(d.vacancyRate)` of the comparator. -/
def rateOf (d : AreaStat) : ℚ :=
  parseFloatQ d.vacancyRate

/-- Stable descending insertion: `x` goes in front of the first element whose
rate does not exceed `x`'s, so an element is never moved past an equal-rate
element that preceded it. -/
def insertDesc (x : AreaStat) : List AreaStat → List AreaStat
  | [] => [x]
  | y :: ys => if rateOf y ≤ rateOf x then x :: y :: ys else y :: insertDesc x ys

/-- Stable sort by vacancy rate descending, the order
`sort((a, b) => parseFloat(b.vacancyRate) - parseFloat(a.vacancyRate))`
produces. -/
def sortDesc : List AreaStat → List AreaStat
  | [] => []
  | x :: xs => insertDesc x (sortDesc xs)

/-- The rows of the Area Statistics table: the sorted data truncated to 10
rows by `.slice(0, 10)` (App.jsx 758). -/
def rankedRows (vacancyData : List AreaStat) : List AreaStat :=
  (sortDesc vacancyData).take 10

/-! The selection controller: the component state the handlers mutate, and
the handlers themselves, with every `fetch` response supplied as an explicit
environment value. -/

/-- Summary statistics as `stateStats` / `countyStats` store them
(App.jsx 372-378, 469-475). `occupied` is `totalHousing - vacant` over JS
numbers, hence an integer. -/
structure DisplayStats where
  name : String
  totalHousing : Nat
  vacant : Nat
  occupied : Int
  vacancyRate : String
deriving DecidableEq, Repr

/-- The `HousingStats` component state touched by the pipeline
(App.jsx 18-28). Geography levels are the raw strings the selectors emit. -/
structure AppState where
  selectedState : String
  selectedCounty : String
  geoLevel : String
  geoJsonData : Option GeoJsonDoc
  vacancyData : List AreaStat
  stateStats : Option DisplayStats
  countyStats : Option DisplayStats
  error : Option JsError
  loading : Bool
deriving DecidableEq, Repr

/-- Responses available to `fetchGeoJSON`: the static national boundary
document, and the TIGERweb query endpoint's status and parsed body. -/
structure GeoEnv where
  stateDoc : GeoJsonDoc
  queryOk : Bool
  queryStatus : Nat
  queryDoc : GeoJsonDoc
deriving Repr

set_option linter.unusedVariables false in
/-- `fetchGeoJSON` (App.jsx 132-184). `'state'` fetches the national document
and, for a truthy `stateId`, filters its features by `properties.id ===
stateId` (no HTTP-status check on this path; `countyId` only varies the
unobservable `where` clause); `'county'` and `'tract'` build a TIGERweb
query and throw on a non-ok status; every other level value reaches the
`default` arm and throws `'Invalid geography level'`. The `catch` block
rethrows with the message prefixed `'Failed to fetch GeoJSON: '`, a
decoration that keeps the error kind. -/
def fetchGeoJSON (env : GeoEnv) (level stateId countyId : String) :
    Except JsError GeoJsonDoc :=
  if level = "state" then
    .ok (if stateId ≠ "" then
          { env.stateDoc with
            features := env.stateDoc.features.filter
              (fun f => getProp f.properties "id" == some stateId) }
        else env.stateDoc)
  else if level = "county" then
    if env.queryOk then .ok env.queryDoc else .error (.httpError env.queryStatus)
  else if level = "tract" then
    if env.queryOk then .ok env.queryDoc else .error (.httpError env.queryStatus)
  else .error .invalidGeographyLevel

/-- The two concurrently issued fetches of one cycle, as an environment. -/
structure CycleEnv where
  geo : GeoEnv
  vacResp : List (List String)
deriving Repr

/-- `handleGeoLevelChange` (App.jsx 600-629). Only
`newLevel === 'tract' && !selectedCounty` is guarded: it sets the
precondition error and returns with `geoLevel`, the view model and the rest
of the state untouched. Every other call sets `geoLevel` and runs a fetch
cycle for the new level with the existing `selectedState` /
`selectedCounty`: on success it commits geometry and vacancy data and leaves
`error` cleared; on failure it stores the error (message decorated
`'Failed to update geography level: '`) and commits nothing. -/
def handleGeoLevelChange (s : AppState) (env : CycleEnv) (newLevel : String) :
    AppState :=
  if newLevel = "tract" ∧ s.selectedCounty = "" then
    { s with error := some .preconditionCountyFirst }
  else
    let s1 := { s with geoLevel := newLevel }
    match fetchGeoJSON env.geo newLevel s.selectedState s.selectedCounty with
    | .error e => { s1 with error := some e }
    | .ok geo =>
      { s1 with
        geoJsonData := some geo
        vacancyData := fetchVacancyData env.vacResp
        error := none }

/-- Responses available to `handleCountySelect`: HTTP status flags and parsed
bodies of the statistics and geometry requests (`null`/non-array bodies are
the `none` cases). -/
structure CountyEnv where
  statsOk : Bool
  geoOk : Bool
  statsJson : Option (List (List String))
  geoJson : Option EsriData
deriving Repr

/-- The `catch` block of `handleCountySelect` (App.jsx 502-510): it stores
the error and clears `countyStats`, `geoJsonData` and `vacancyData`. -/
def countyCatch (s : AppState) (e : JsError) : AppState :=
  { s with
    error := some e
    countyStats := none
    geoJsonData := none
    vacancyData := [] }

/-- JS `"name, State".split(',')[0]`. -/
def splitComma0 (s : String) : String :=
  (s.splitOn ",").headD ""

/-- `handleCountySelect` (App.jsx 405-511). A call during loading returns
immediately. The selection is updated (`selectedCounty`, `countyStats`
cleared, `geoLevel` set to `'county'`) before any fetching; a falsy county
or state id stops there. Otherwise the ids are padded, both requests issued,
and the responses validated: a non-ok status throws `'Failed to fetch county
data'`, a missing/short statistics body throws `'Invalid statistics data
received'`, and a missing/absent-`features`/empty-`features` geometry body
throws `'Invalid geometry data received'`; any throw lands in `countyCatch`.
On success the county row is processed like `rowToStat`'s cells, the ESRI
features are translated in place (type `'esriGeometryPolygon'` becomes
`'Polygon'`, coordinates are `rings || coordinates`, properties get `GEOID`
set to the padded state+county composite), and `countyStats`, `geoJsonData`
and a singleton `vacancyData` are committed. -/
def handleCountySelect (s : AppState) (env : CountyEnv) (countyId : String) :
    AppState :=
  if s.loading then s
  else
    let s1 := { s with
      selectedCounty := countyId
      countyStats := none
      geoLevel := "county" }
    if countyId = "" ∨ s.selectedState = "" then s1
    else
      let s2 := { s1 with error := none }
      let fsid := padStart s.selectedState 2 '0'
      let fcid := padStart countyId 3 '0'
      if ¬(env.statsOk ∧ env.geoOk) then countyCatch s2 .fetchCountyFailed
      else
        match env.statsJson with
        | none => countyCatch s2 .invalidStatsData
        | some statsData =>
          if statsData.length < 2 then countyCatch s2 .invalidStatsData
          else
            match env.geoJson with
            | none => countyCatch s2 .invalidGeometryData
            | some gd =>
              match gd.features with
              | none => countyCatch s2 .invalidGeometryData
              | some [] => countyCatch s2 .invalidGeometryData
              | some fs =>
                let headers := statsData.headD []
                let countyRow := (statsData.drop 1).headD []
                let totalHousing := parseIntOrZero
                  (getCell countyRow (headers.findIdx? (· == variables_totalHousing)))
                let vacant := parseIntOrZero
                  (getCell countyRow (headers.findIdx? (· == variables_vacant)))
                let vacancyRate := vacancyRateStr vacant totalHousing
                let cname := splitComma0 ((countyRow[0]?).getD "")
                { s2 with
                  countyStats := some
                    { name := cname
                      totalHousing := totalHousing
                      vacant := vacant
                      occupied := (totalHousing : Int) - (vacant : Int)
                      vacancyRate := vacancyRate }
                  geoJsonData := some
                    { ftype := "FeatureCollection"
                      features := fs.map (fun f =>
                        { ftype := "Feature"
                          geometry :=
                            { gtype := if f.geometry.gtype = "esriGeometryPolygon"
                                       then "Polygon" else f.geometry.gtype
                              coordinates := f.geometry.rings <|> f.geometry.coordinates }
                          properties := setProp f.attributes "GEOID" (fsid ++ fcid) }) }
                  vacancyData :=
                    [{ name := cname
                       geoid := fsid ++ fcid
                       totalHousing := totalHousing
                       vacant := vacant
                       vacancyRate := vacancyRate }] }

/-! The concurrency model for `updateMap` (App.jsx 223-251). Each user
selection change re-creates `updateMap` and the effect runs it, initiating a
fetch cycle whose two requests are captured at initiation; when its
`Promise.all` settles, the `then`-continuation body runs on the single JS
event loop. The continuations of distinct cycles therefore execute
sequentially in *completion* order, and each one commits (or stores its
error) with no check of any cycle token. A completed cycle is modelled by
the pair of its fetch results, and a schedule by the list of completed
cycles in completion order. -/

/-- The resolution body of one `updateMap` cycle (App.jsx 230-246): on
success of both fetches (with a present `features` member, App.jsx 235-237)
the geometry and vacancy data are committed; on any failure the error is
stored. Nothing gates either branch on the cycle still being the latest. -/
def updateMapResolve (s : AppState)
    (geoRes : Except JsError GeoJsonDoc)
    (vacRes : Except JsError (List AreaStat)) : AppState :=
  match geoRes, vacRes with
  | .ok g, .ok v => { s with geoJsonData := some g, vacancyData := v, error := none }
  | .error e, _ => { s with error := some e }
  | .ok _, .error e => { s with error := some e }

/-- The fetch results of one completed cycle. -/
structure CycleOutcome where
  geoRes : Except JsError GeoJsonDoc
  vacRes : Except JsError (List AreaStat)
deriving Repr

/-- Running the resolution bodies of a list of completed cycles in
completion order over the component state. -/
def runResolutions (s : AppState) (outcomes : List CycleOutcome) : AppState :=
  outcomes.foldl (fun st o => updateMapResolve st o.geoRes o.vacRes) s

/-! Helper lemmas shared by the claim theorems. -/

/-- A cell that is missing or carries no leading decimal digit
(so JS `parseInt` yields `NaN`). -/
def missingOrNonNumeric : Option String → Bool
  | none => true
  | some s => (s.data.takeWhile Char.isDigit).isEmpty

lemma parseIntOrZero_of_missingOrNonNumeric (c : Option String)
    (h : missingOrNonNumeric c = true) : parseIntOrZero c = 0 := by
  cases c with
  | none => rfl
  | some s =>
    simp only [missingOrNonNumeric, List.isEmpty_iff] at h
    simp [parseIntOrZero, h]

lemma getD_getElem_last {α : Type} (l : List α) (h : l ≠ []) (d : α) :
    (l[l.length - 1]?).getD d = l.getLast h := by
  induction l with
  | nil => exact absurd rfl h
  | cons x xs ih =>
    cases xs with
    | nil => rfl
    | cons y ys =>
      rw [List.getLast_cons (by simp : (y :: ys) ≠ [])]
      rw [← ih (by simp)]
      simp [List.length_cons]

lemma rateTenths_eq_round (vacant total : Nat) (h : 0 < total) :
    rateTenths vacant total =
      (round ((vacant : ℚ) / (total : ℚ) * 100 * 10)).toNat := by
  rw [round_eq, Int.floor_toNat]
  have ht : (total : ℚ) ≠ 0 := by positivity
  have key : (vacant : ℚ) / (total : ℚ) * 100 * 10 + 1 / 2 =
      ((2000 * vacant + total : ℕ) : ℚ) / ((2 * total : ℕ) : ℚ) := by
    push_cast
    field_simp
    ring
  rw [key, Nat.floor_div_eq_div]
  rfl

end GeoApp

namespace GeoApp

/-- C9: for every valid (all-digit) raw state id of length 1 to 2, the state
normalization `id.padStart(2, '0')` yields a 2-character all-digit string,
and normalizing an already-normalized id returns it unchanged. -/
theorem C9_normalize_state_id (s : String)
    (hnum : isNumericStr s = true) (h1 : 1 ≤ s.length) (h2 : s.length ≤ 2) :
    (normalizeStateId s).length = 2 ∧
    isNumericStr (normalizeStateId s) = true ∧
    normalizeStateId (normalizeStateId s) = normalizeStateId s := by
  obtain ⟨l⟩ := s
  have hlen : l.length ≤ 2 := h2
  refine ⟨?_, ?_, ?_⟩
  · show (List.replicate (2 - l.length) '0' ++ l).length = 2
    simp only [List.length_append, List.length_replicate]
    omega
  · show (List.replicate (2 - l.length) '0' ++ l).all Char.isDigit = true
    rw [List.all_append]
    rw [Bool.and_eq_true]
    refine ⟨?_, hnum⟩
    refine List.all_eq_true.2 (fun c hc => ?_)
    rw [List.eq_of_mem_replicate hc]
    decide
  · show (⟨List.replicate (2 - (List.replicate (2 - l.length) '0' ++ l).length) '0' ++
        (List.replicate (2 - l.length) '0' ++ l)⟩ : String) =
      ⟨List.replicate (2 - l.length) '0' ++ l⟩
    have : (List.replicate (2 - l.length) '0' ++ l).length = 2 := by
      simp only [List.length_append, List.length_replicate]
      omega
    rw [this]
    simp

/-- C9 witness: the normalization facts at the concrete raw id `"6"`. -/
theorem C9_normalize_state_id_witness :
    (normalizeStateId "6").length = 2 ∧
    isNumericStr (normalizeStateId "6") = true ∧
    normalizeStateId (normalizeStateId "6") = normalizeStateId "6" :=
  C9_normalize_state_id "6" (by decide) (by decide) (by decide)

/-- C6 counterexample: on the row `["California", "1000", "100", "6"]` with
an unpadded upstream geoid, the stored geoid is the raw string `"6"`, not
the Identifier Normalizer's canonical `"06"` — the claim that the geoid is
passed through the normalizer is false. -/
theorem C6_counterexample_raw_geoid :
    (rowToStat ["NAME", "B25002_001E", "B25002_003E", "state"]
      ["California", "1000", "100", "6"]).geoid = "6" ∧
    normalizeStateId "6" = "06" ∧
    (rowToStat ["NAME", "B25002_001E", "B25002_003E", "state"]
      ["California", "1000", "100", "6"]).geoid ≠ normalizeStateId "6" := by
  refine ⟨by decide, by decide, by decide⟩

/-- C6 amended: for every nonempty data row, the stored geoid is exactly the
row's last column, as the upstream delivered it (no normalization is
applied). -/
theorem C6_geoid_last_column_raw (headers row : List String) (h : row ≠ []) :
    (rowToStat headers row).geoid = row.getLast h := by
  show (row[row.length - 1]?).getD "" = row.getLast h
  exact getD_getElem_last row h ""

/-- C6 witness: the last-column fact at a concrete two-cell row. -/
theorem C6_geoid_last_column_raw_witness :
    (rowToStat ["NAME"] ["X", "7"]).geoid =
      (["X", "7"] : List String).getLast (List.cons_ne_nil "X" ["7"]) :=
  C6_geoid_last_column_raw ["NAME"] ["X", "7"] (List.cons_ne_nil "X" ["7"])

/-- C2: for every fetched attribute row, the derived vacancy rate string is
the exact rate `vacant/total*100` rounded to one decimal place (rendered
with one fractional digit) when the total is positive, is `"0.0"` when the
total is zero (the computation is total, so nothing throws), and a missing
or non-numeric count cell defaults to `0` instead of failing the row. -/
theorem C2_vacancy_rate_rule (headers row : List String) :
    ((rowToStat headers row).totalHousing = 0 →
      (rowToStat headers row).vacancyRate = "0.0") ∧
    (0 < (rowToStat headers row).totalHousing →
      (rowToStat headers row).vacancyRate =
        showTenths (round (((rowToStat headers row).vacant : ℚ) /
          ((rowToStat headers row).totalHousing : ℚ) * 100 * 10)).toNat) ∧
    (missingOrNonNumeric
        (getCell row (headers.findIdx? (· == variables_totalHousing))) = true →
      (rowToStat headers row).totalHousing = 0) ∧
    (missingOrNonNumeric
        (getCell row (headers.findIdx? (· == variables_vacant))) = true →
      (rowToStat headers row).vacant = 0) := by
  refine ⟨?_, ?_, ?_, ?_⟩
  · intro h0
    show vacancyRateStr _ _ = "0.0"
    simp only [rowToStat] at h0
    simp [vacancyRateStr, h0]
  · intro hpos
    show vacancyRateStr _ _ = _
    simp only [rowToStat] at hpos ⊢
    rw [vacancyRateStr, if_pos hpos, rateTenths_eq_round _ _ hpos]
  · intro hmiss
    exact parseIntOrZero_of_missingOrNonNumeric _ hmiss
  · intro hmiss
    exact parseIntOrZero_of_missingOrNonNumeric _ hmiss

/-- C2 witness: the positive-total branch at the synthetic Census row for
California (`total 1000`, `vacant 100`), whose rendered rate is the rounded
exact rate. -/
theorem C2_vacancy_rate_rule_witness :
    0 < (rowToStat ["NAME", "B25002_001E", "B25002_003E", "state"]
          ["California", "1000", "100", "06"]).totalHousing ∧
    (rowToStat ["NAME", "B25002_001E", "B25002_003E", "state"]
        ["California", "1000", "100", "06"]).vacancyRate =
      showTenths (round (((rowToStat ["NAME", "B25002_001E", "B25002_003E", "state"]
          ["California", "1000", "100", "06"]).vacant : ℚ) /
        ((rowToStat ["NAME", "B25002_001E", "B25002_003E", "state"]
          ["California", "1000", "100", "06"]).totalHousing : ℚ) * 100 * 10)).toNat :=
  ⟨by decide,
   (C2_vacancy_rate_rule ["NAME", "B25002_001E", "B25002_003E", "state"]
     ["California", "1000", "100", "06"]).2.1 (by decide)⟩

lemma getProp_setProp_self (ps : Props) (k v : String) :
    getProp (setProp ps k v) k = some v := by
  unfold getProp setProp
  rw [List.find?_append]
  have hnone : List.find? (fun p => p.fst == k)
      (ps.filter (fun p => ¬(p.fst == k))) = none := by
    refine List.find?_eq_none.2 (fun x hx => ?_)
    have := List.of_mem_filter hx
    simpa using this
  rw [hnone]
  simp

/-- C10: `esriToGeoJSON` rejects a missing input or a missing `features`
array with an error; on an input with a features array it produces a
`FeatureCollection` whose features are the pointwise conversions, every
converted feature's geometry type is the literal `'Polygon'` whatever the
input geometry type was, and every converted feature's properties carry an
`id` equal to the input's (non-empty) `GEOID` attribute when present and
otherwise the concatenation of its `STATE`, `COUNTY` and `TRACT` attributes
with missing parts as empty strings. -/
theorem C10_esri_to_geojson_shape :
    esriToGeoJSON none = .error .invalidEsriData ∧
    (∀ d : EsriData, d.features = none →
      esriToGeoJSON (some d) = .error .invalidEsriData) ∧
    (∀ (d : EsriData) (fs : List EsriFeature), d.features = some fs →
      esriToGeoJSON (some d) =
        .ok { ftype := "FeatureCollection", features := fs.map esriFeatureToGeoJSON } ∧
      ∀ f ∈ fs,
        (esriFeatureToGeoJSON f).geometry.gtype = "Polygon" ∧
        (∀ g, getProp f.attributes "GEOID" = some g → g ≠ "" →
          getProp (esriFeatureToGeoJSON f).properties "id" = some g) ∧
        (getProp f.attributes "GEOID" = none →
          getProp (esriFeatureToGeoJSON f).properties "id" =
            some ((getProp f.attributes "STATE").getD "" ++
                  (getProp f.attributes "COUNTY").getD "" ++
                  (getProp f.attributes "TRACT").getD ""))) := by
  refine ⟨rfl, ?_, ?_⟩
  · intro d hd
    simp [esriToGeoJSON, hd]
  · intro d fs hd
    refine ⟨by simp [esriToGeoJSON, hd], ?_⟩
    intro f _
    refine ⟨rfl, ?_, ?_⟩
    · intro g hg hne
      show getProp (setProp f.attributes "id" _) "id" = some g
      rw [getProp_setProp_self]
      rw [hg]
      simp [jsOrStr, hne]
    · intro hg
      show getProp (setProp f.attributes "id" _) "id" = some _
      rw [getProp_setProp_self]
      rw [hg]
      simp [jsOrStr]

/-- A concrete ESRI feature with a `GEOID` attribute and a non-polygon input
geometry type, used by the concrete instantiation of C10. -/
def c10Feature : EsriFeature where
  geometry := { gtype := "esriGeometryPolygon", rings := some [], coordinates := none }
  attributes := [("GEOID", "06073")]

/-- The concrete single-feature ESRI input used by the concrete
instantiation of C10. -/
def c10Input : EsriData where
  features := some [c10Feature]

/-- C10 witness: the conversion facts at a concrete single-feature ESRI
input carrying `GEOID = "06073"` and a non-polygon input geometry type. -/
theorem C10_esri_to_geojson_shape_witness :
    (esriFeatureToGeoJSON c10Feature).geometry.gtype = "Polygon" ∧
    getProp (esriFeatureToGeoJSON c10Feature).properties "id" = some "06073" := by
  have h := (C10_esri_to_geojson_shape.2.2 c10Input [c10Feature] rfl).2
    c10Feature (by simp)
  exact ⟨h.1, h.2.1 "06073" (by decide) (by decide)⟩

/-- C7: the rendered layer styles every feature of the committed document
(none is dropped by the join); a feature whose key matches no statistic
receives exactly the constant style built from rate `0`, and a feature with
a match receives the style built from that match's parsed vacancy rate. -/
theorem C7_join_default_zero (doc : GeoJsonDoc) (vd : List AreaStat) :
    ((renderLayer doc vd).map Prod.fst = doc.features) ∧
    (∀ f : GeoFeature, findStat vd f = none →
      style vd f =
        { fillColor := getColor 0, weight := 1, opacity := 1, color := "#666",
          dashArray := "", fillOpacity := 7 / 10 }) ∧
    (∀ (f : GeoFeature) (d : AreaStat), findStat vd f = some d →
      style vd f =
        { fillColor := getColor (parseFloatQ d.vacancyRate), weight := 1,
          opacity := 1, color := "#666", dashArray := "", fillOpacity := 7 / 10 }) := by
  refine ⟨?_, ?_, ?_⟩
  · rw [renderLayer, List.map_map]
    have h : (Prod.fst ∘ fun f : GeoFeature => (f, style vd f)) = id :=
      funext fun _ => rfl
    rw [h, List.map_id]
  · intro f hf
    simp [style, hf]
  · intro f d hf
    simp [style, hf]

/-- C7 witness: at a concrete layer, an unmatched feature gets the rate-0
fill color and a matched feature gets its statistic's parsed rate color. -/
theorem C7_join_default_zero_witness :
    style [{ name := "SD", geoid := "06073", totalHousing := 1000, vacant := 100,
             vacancyRate := "10.0" }]
        { ftype := "Feature", geometry := { gtype := "Polygon", coordinates := none },
          properties := [("GEOID", "99999")] } =
      { fillColor := getColor 0, weight := 1, opacity := 1, color := "#666",
        dashArray := "", fillOpacity := 7 / 10 } ∧
    style [{ name := "SD", geoid := "06073", totalHousing := 1000, vacant := 100,
             vacancyRate := "10.0" }]
        { ftype := "Feature", geometry := { gtype := "Polygon", coordinates := none },
          properties := [("GEOID", "06073")] } =
      { fillColor := getColor (parseFloatQ "10.0"), weight := 1, opacity := 1,
        color := "#666", dashArray := "", fillOpacity := 7 / 10 } := by
  constructor
  · exact (C7_join_default_zero { ftype := "FeatureCollection", features := [] }
      [{ name := "SD", geoid := "06073", totalHousing := 1000, vacant := 100,
         vacancyRate := "10.0" }]).2.1
      { ftype := "Feature", geometry := { gtype := "Polygon", coordinates := none },
        properties := [("GEOID", "99999")] } (by decide)
  · exact (C7_join_default_zero { ftype := "FeatureCollection", features := [] }
      [{ name := "SD", geoid := "06073", totalHousing := 1000, vacant := 100,
         vacancyRate := "10.0" }]).2.2
      { ftype := "Feature", geometry := { gtype := "Polygon", coordinates := none },
        properties := [("GEOID", "06073")] }
      { name := "SD", geoid := "06073", totalHousing := 1000, vacant := 100,
        vacancyRate := "10.0" } (by decide)

lemma insertDesc_perm (x : AreaStat) (l : List AreaStat) :
    (insertDesc x l).Perm (x :: l) := by
  induction l with
  | nil => exact List.Perm.refl _
  | cons y ys ih =>
    rw [insertDesc]
    by_cases h : rateOf y ≤ rateOf x
    · rw [if_pos h]
    · rw [if_neg h]
      exact ((ih.cons y).trans (List.Perm.swap x y ys)).symm.symm

lemma mem_insertDesc {x z : AreaStat} {l : List AreaStat}
    (h : z ∈ insertDesc x l) : z = x ∨ z ∈ l :=
  by simpa using (insertDesc_perm x l).mem_iff.1 h

lemma insertDesc_pairwise (x : AreaStat) (l : List AreaStat)
    (hl : List.Pairwise (fun a b => rateOf b ≤ rateOf a) l) :
    List.Pairwise (fun a b => rateOf b ≤ rateOf a) (insertDesc x l) := by
  induction l with
  | nil => simp [insertDesc]
  | cons y ys ih =>
    rw [List.pairwise_cons] at hl
    rw [insertDesc]
    by_cases h : rateOf y ≤ rateOf x
    · rw [if_pos h]
      refine List.pairwise_cons.2 ⟨?_, List.pairwise_cons.2 hl⟩
      intro z hz
      rcases List.mem_cons.1 hz with rfl | hz
      · exact h
      · exact (hl.1 z hz).trans h
    · rw [if_neg h]
      refine List.pairwise_cons.2 ⟨?_, ih hl.2⟩
      intro z hz
      rcases mem_insertDesc hz with rfl | hz
      · exact le_of_not_le h
      · exact hl.1 z hz

lemma sortDesc_perm (l : List AreaStat) : (sortDesc l).Perm l := by
  induction l with
  | nil => exact List.Perm.refl _
  | cons x xs ih =>
    exact (insertDesc_perm x (sortDesc xs)).trans (ih.cons x)

lemma sortDesc_pairwise (l : List AreaStat) :
    List.Pairwise (fun a b => rateOf b ≤ rateOf a) (sortDesc l) := by
  induction l with
  | nil => simp [sortDesc]
  | cons x xs ih => exact insertDesc_pairwise x (sortDesc xs) ih

lemma insertDesc_filter_eq (x : AreaStat) (l : List AreaStat) (r : ℚ)
    (hx : rateOf x = r) :
    (insertDesc x l).filter (fun d => decide (rateOf d = r)) =
      x :: l.filter (fun d => decide (rateOf d = r)) := by
  induction l with
  | nil => simp [insertDesc, List.filter, hx]
  | cons y ys ih =>
    rw [insertDesc]
    by_cases h : rateOf y ≤ rateOf x
    · rw [if_pos h]
      simp [List.filter, hx]
    · rw [if_neg h]
      have hy : rateOf y ≠ r := by
        intro hyr
        exact h (by rw [hyr, ← hx])
      rw [List.filter_cons, List.filter_cons]
      simp only [hy, decide_eq_true_eq, if_neg]
      rw [ih]
      simp [hy]

lemma insertDesc_filter_ne (x : AreaStat) (l : List AreaStat) (r : ℚ)
    (hx : rateOf x ≠ r) :
    (insertDesc x l).filter (fun d => decide (rateOf d = r)) =
      l.filter (fun d => decide (rateOf d = r)) := by
  induction l with
  | nil => simp [insertDesc, List.filter, hx]
  | cons y ys ih =>
    rw [insertDesc]
    by_cases h : rateOf y ≤ rateOf x
    · rw [if_pos h]
      simp [List.filter, hx]
    · rw [if_neg h]
      rw [List.filter_cons, List.filter_cons]
      rw [ih]

lemma sortDesc_filter (l : List AreaStat) (r : ℚ) :
    (sortDesc l).filter (fun d => decide (rateOf d = r)) =
      l.filter (fun d => decide (rateOf d = r)) := by
  induction l with
  | nil => rfl
  | cons x xs ih =>
    rw [sortDesc]
    by_cases hx : rateOf x = r
    · rw [insertDesc_filter_eq x (sortDesc xs) r hx, ih, List.filter_cons]
      simp [hx]
    · rw [insertDesc_filter_ne x (sortDesc xs) r hx, ih, List.filter_cons]
      simp [hx]

/-- C8: the ranked statistics table consists of the first 10 entries of the
vacancy data sorted by parsed vacancy rate descending; the sorted list is a
permutation of the input, is ordered by non-increasing rate, and the sort is
stable — for every rate value, the entries holding that rate appear in the
output exactly in their input order. -/
theorem C8_ranking_stable (vd : List AreaStat) (r : ℚ) :
    rankedRows vd = (sortDesc vd).take 10 ∧
    (sortDesc vd).Perm vd ∧
    List.Pairwise (fun a b => rateOf b ≤ rateOf a) (sortDesc vd) ∧
    (sortDesc vd).filter (fun d => decide (rateOf d = r)) =
      vd.filter (fun d => decide (rateOf d = r)) :=
  ⟨rfl, sortDesc_perm vd, sortDesc_pairwise vd, sortDesc_filter vd r⟩

/-! Concrete inputs for the selection-controller claims. -/

/-- A baseline component state with California selected at state level. -/
def baseState : AppState where
  selectedState := "06"
  selectedCounty := ""
  geoLevel := "state"
  geoJsonData := none
  vacancyData := []
  stateStats := none
  countyStats := none
  error := none
  loading := false

/-- A one-feature GeoJSON document (cycle A's geometry in the C1 scenario). -/
def docA : GeoJsonDoc where
  ftype := "FeatureCollection"
  features := [{ ftype := "Feature"
                 geometry := { gtype := "Polygon", coordinates := none }
                 properties := [("id", "06")] }]

/-- An empty GeoJSON document (cycle B's geometry in the C1 scenario),
distinct from `docA`. -/
def docB : GeoJsonDoc where
  ftype := "FeatureCollection"
  features := []

/-- C1 counterexample. Scenario: cycle A is initiated, then the user changes
selection and cycle B is initiated before A resolves; B resolves first and A
resolves last, so the completion order is `[B, A]`. The committed view model
then holds A's geometry, not B's: the claimed suppression of the superseded
cycle (and the claimed gate in the committing callbacks) does not exist in
`updateMap`. -/
theorem C1_counterexample_stale_overwrite :
    (runResolutions baseState
        [{ geoRes := .ok docB, vacRes := .ok [] },
         { geoRes := .ok docA, vacRes := .ok [] }]).geoJsonData = some docA ∧
    (some docA : Option GeoJsonDoc) ≠ some docB := by
  refine ⟨rfl, by decide⟩

/-- C1 amended: `updateMap`'s resolution callbacks are not gated on any
cycle token, so after any sequence of cycle resolutions the committed view
model is exactly the result of the cycle that resolved last (last completion
wins, not last initiation). -/
theorem C1_last_completion_wins (s : AppState) (outcomes : List CycleOutcome)
    (g : GeoJsonDoc) (v : List AreaStat)
    (h : outcomes.getLast? = some { geoRes := .ok g, vacRes := .ok v }) :
    (runResolutions s outcomes).geoJsonData = some g ∧
    (runResolutions s outcomes).vacancyData = v := by
  induction outcomes generalizing s with
  | nil => simp at h
  | cons o os ih =>
    cases os with
    | nil =>
      simp only [List.getLast?_singleton, Option.some.injEq] at h
      subst h
      exact ⟨rfl, rfl⟩
    | cons o2 os2 =>
      rw [List.getLast?_cons_cons] at h
      exact ih _ h

/-- C1 witness: last-completion-wins applied to the concrete two-cycle
schedule of the counterexample scenario. -/
theorem C1_last_completion_wins_witness :
    (runResolutions baseState
        [{ geoRes := .ok docB, vacRes := .ok [] },
         { geoRes := .ok docA, vacRes := .ok [] }]).geoJsonData = some docA ∧
    (runResolutions baseState
        [{ geoRes := .ok docB, vacRes := .ok [] },
         { geoRes := .ok docA, vacRes := .ok [] }]).vacancyData = [] :=
  C1_last_completion_wins baseState
    [{ geoRes := .ok docB, vacRes := .ok [] },
     { geoRes := .ok docA, vacRes := .ok [] }] docA [] rfl

/-- A prior Ready component state: California committed at state level, with
geometry and one vacancy statistic on screen. -/
def c3Prior : AppState where
  selectedState := "06"
  selectedCounty := ""
  geoLevel := "state"
  geoJsonData := some docA
  vacancyData := [{ name := "California", geoid := "06", totalHousing := 1000,
                    vacant := 100, vacancyRate := "10.0" }]
  stateStats := none
  countyStats := none
  error := none
  loading := false

/-- A county-selection environment whose statistics response is valid but
whose geometry response carries an empty feature list. -/
def c3Env : CountyEnv where
  statsOk := true
  geoOk := true
  statsJson := some [["NAME", "B25002_001E", "B25002_003E", "state", "county"],
                     ["San Diego County, California", "1100000", "80000", "06", "073"]]
  geoJson := some { features := some [] }

/-- C3 counterexample: selecting county `"073"` against a zero-feature
geometry response does fail with the geometry-unavailable error, but the
previously committed Ready view model is not left unchanged — the `catch`
block clears the committed geometry and vacancy statistics. -/
theorem C3_counterexample_view_model_cleared :
    (handleCountySelect c3Prior c3Env "073").error = some .invalidGeometryData ∧
    (handleCountySelect c3Prior c3Env "073").geoJsonData = none ∧
    (handleCountySelect c3Prior c3Env "073").vacancyData = [] ∧
    (handleCountySelect c3Prior c3Env "073").geoJsonData ≠ c3Prior.geoJsonData := by
  refine ⟨rfl, rfl, rfl, by decide⟩

/-- C3 amended: on a county-level cycle whose geometry response has zero
features (and an otherwise valid environment), `handleCountySelect` fails
with the geometry-unavailable error and its catch block clears the committed
view model — geometry becomes `null`, vacancy statistics become empty and
the county summary is dropped — instead of leaving the prior Ready view
model untouched; the selection itself keeps the new county and the
`'county'` geography level. -/
theorem C3_zero_features_clears_view_model (s : AppState) (env : CountyEnv)
    (countyId : String) (hl : s.loading = false) (hc : countyId ≠ "")
    (hs : s.selectedState ≠ "") (hok : env.statsOk = true) (hgok : env.geoOk = true)
    (sd : List (List String)) (hsd : env.statsJson = some sd) (hlen : 2 ≤ sd.length)
    (gd : EsriData) (hgd : env.geoJson = some gd) (hfs : gd.features = some []) :
    handleCountySelect s env countyId =
      { s with selectedCounty := countyId, geoLevel := "county",
               countyStats := none, error := some .invalidGeometryData,
               geoJsonData := none, vacancyData := [] } := by
  obtain ⟨ss, sc, gl, gj, vd, sts, cts, er, ld⟩ := s
  obtain ⟨sok, gok, sj, gjn⟩ := env
  obtain ⟨gdf⟩ := gd
  simp only at hl hs hok hgok hsd hgd hfs
  subst hl hok hgok hsd hgd hfs
  have h3 : ¬ (sd.length < 2) := by omega
  simp [handleCountySelect, countyCatch, hc, hs, h3]

/-- C3 witness: the amended clearing behaviour at the concrete prior Ready
state and zero-feature environment. -/
theorem C3_zero_features_clears_view_model_witness :
    handleCountySelect c3Prior c3Env "073" =
      { c3Prior with selectedCounty := "073", geoLevel := "county",
                     countyStats := none, error := some .invalidGeometryData,
                     geoJsonData := none, vacancyData := [] } :=
  C3_zero_features_clears_view_model c3Prior c3Env "073" rfl (by decide) (by decide)
    rfl rfl
    [["NAME", "B25002_001E", "B25002_003E", "state", "county"],
     ["San Diego County, California", "1100000", "80000", "06", "073"]]
    rfl (by decide) { features := some [] } rfl rfl

/-- A component state with a county-level selection but no county chosen. -/
def c4State : AppState where
  selectedState := "06"
  selectedCounty := ""
  geoLevel := "county"
  geoJsonData := none
  vacancyData := []
  stateStats := none
  countyStats := none
  error := none
  loading := false

/-- A cycle environment with healthy responses. -/
def c4Env : CycleEnv where
  geo := { stateDoc := docB, queryOk := true, queryStatus := 200, queryDoc := docB }
  vacResp := []

/-- C4 counterexample: a direct change to `'block'` with no county selected
is not blocked — `geoLevel` is changed to `'block'` (so it is not left
unchanged), a cycle is started, and the resulting error is the unsupported
geography level of the started fetch, not `PreconditionNotMet`. -/
theorem C4_counterexample_block_unguarded :
    (handleGeoLevelChange c4State c4Env "block").geoLevel = "block" ∧
    (handleGeoLevelChange c4State c4Env "block").geoLevel ≠ c4State.geoLevel ∧
    (handleGeoLevelChange c4State c4Env "block").error = some .invalidGeographyLevel ∧
    (handleGeoLevelChange c4State c4Env "block").error ≠ some .preconditionCountyFirst := by
  refine ⟨rfl, by decide, rfl, by decide⟩

/-- C4 amended: only `'tract'` is guarded — changing to tract with no county
selected fails with the precondition error, starts no cycle and leaves
`geoLevel` (and the whole rest of the state) unchanged; every other direct
level change, including `'block'` with no county, sets `geoLevel` and starts
a fetch cycle for the new level with the existing state and county ids,
committing its data on success and recording its error on failure. -/
theorem C4_tract_guard_only :
    (∀ (s : AppState) (env : CycleEnv), s.selectedCounty = "" →
      handleGeoLevelChange s env "tract" =
        { s with error := some .preconditionCountyFirst }) ∧
    (∀ (s : AppState) (env : CycleEnv) (newLevel : String),
      (newLevel = "tract" → s.selectedCounty ≠ "") →
      (handleGeoLevelChange s env newLevel).geoLevel = newLevel ∧
      (∀ g, fetchGeoJSON env.geo newLevel s.selectedState s.selectedCounty = .ok g →
        handleGeoLevelChange s env newLevel =
          { s with geoLevel := newLevel, geoJsonData := some g,
                   vacancyData := fetchVacancyData env.vacResp, error := none }) ∧
      (∀ e, fetchGeoJSON env.geo newLevel s.selectedState s.selectedCounty = .error e →
        handleGeoLevelChange s env newLevel =
          { s with geoLevel := newLevel, error := some e })) := by
  constructor
  · intro s env h
    rw [handleGeoLevelChange, if_pos ⟨rfl, h⟩]
  · intro s env newLevel hpre
    have hcond : ¬ (newLevel = "tract" ∧ s.selectedCounty = "") := by
      rintro ⟨h1, h2⟩
      exact hpre h1 h2
    refine ⟨?_, ?_, ?_⟩
    · rw [handleGeoLevelChange, if_neg hcond]
      cases hfe : fetchGeoJSON env.geo newLevel s.selectedState s.selectedCounty with
      | ok g => simp [hfe]
      | error e => simp [hfe]
    · intro g hfe
      rw [handleGeoLevelChange, if_neg hcond, hfe]
    · intro e hfe
      rw [handleGeoLevelChange, if_neg hcond, hfe]

/-- C4 witness: the guarded-tract branch at the concrete no-county state,
via the amended theorem. -/
theorem C4_tract_guard_only_witness :
    handleGeoLevelChange c4State c4Env "tract" =
      { c4State with error := some .preconditionCountyFirst } :=
  C4_tract_guard_only.1 c4State c4Env rfl

/-- A concrete geometry-fetch environment with healthy responses. -/
def c5Env : GeoEnv where
  stateDoc := docB
  queryOk := true
  queryStatus := 200
  queryDoc := docB

/-- C5: the geography-level dispatch of `fetchGeoJSON` evaluated at the
failing input `level = 'block'`. The selector offers Block Group as one of
the four recognized levels and `fetchVacancyData` supports it, but
`fetchGeoJSON`'s `switch` has no `'block'` case, so block falls into the
`default` arm and fails with the unsupported-level error, exactly like a
level outside the enumeration; the other three enumerants do not produce
that error. -/
theorem C5_block_level_unsupported :
    fetchGeoJSON c5Env "block" "06" "073" = .error .invalidGeographyLevel ∧
    fetchGeoJSON c5Env "state" "06" "" ≠ .error .invalidGeographyLevel ∧
    fetchGeoJSON c5Env "county" "06" "073" ≠ .error .invalidGeographyLevel ∧
    fetchGeoJSON c5Env "tract" "06" "073" ≠ .error .invalidGeographyLevel ∧
    fetchGeoJSON c5Env "zip" "06" "073" = .error .invalidGeographyLevel := by
  refine ⟨rfl, ?_, ?_, ?_, rfl⟩ <;> simp [fetchGeoJSON, c5Env]

end GeoApp
